import Mathlib

/-!
Verification of the racegate distributed race-timing firmware
(crate `racegate`): shallow embedding of the wire codec
(`src/racegate/src/svc/race_node.rs`) and of the node role state machine
(`src/racegate/src/app/mod.rs`), together with theorems settling the
specification claims about them.

Machine integers are embedded as `Nat` (with explicit `% 2 ^ w` or range
hypotheses where overflow matters); fallible operations return
`Option`/`Except`; a process-terminating path (a Rust panic) is embedded
as `Option.none` at the tick level.
-/

namespace Racegate

/-- Modelled from the spec: the `hal::gate::GateState` enumeration
`{Active, Inactive}` (its defining module is not part of the sources;
spec §3). The wire codec maps `Inactive` to byte 0 and `Active` to
byte 1 (spec §4.3). -/
inductive GateState
| Inactive
| Active
deriving DecidableEq, Repr, Inhabited

/-- Byte value of a `GateState`, as the Rust cast `gate_state as u8`:
0 = inactive, 1 = active (spec §4.3). -/
def GateState.toByte : GateState → Nat
| .Inactive => 0
| .Active => 1

/-- Modelled from the spec: the `hal::button::ButtonState` enumeration
`{Pressed, NotPressed}` (its defining module is not part of the sources;
spec §3). -/
inductive ButtonState
| Pressed
| NotPressed
deriving DecidableEq, Repr

instance : Inhabited ButtonState := ⟨ButtonState.NotPressed⟩

/-- `NodeAddress(u8)` from `svc/race_node.rs`: an 8-bit identifier
classifying a node's role. -/
structure NodeAddress where
val : Nat
deriving DecidableEq, Repr

def NodeAddress.coordinator : NodeAddress := ⟨0⟩

def NodeAddress.start : NodeAddress := ⟨1⟩

def NodeAddress.finish : NodeAddress := ⟨32⟩

def NodeAddress.is_coordinator (a : NodeAddress) : Bool := a.val == 0

def NodeAddress.is_start (a : NodeAddress) : Bool := a.val == 1

def NodeAddress.is_finish (a : NodeAddress) : Bool := a.val == 32

/-- Modelled from the spec: the role predicate `NodeAddress::is_gate`
used by `InitState::update` is not part of the sources; per spec §3/§6
the gate addresses are exactly the start gate (1) and the finish
gate (32). -/
def NodeAddress.is_gate (a : NodeAddress) : Bool := a.is_start || a.is_finish

namespace race_node

/-- Decode error type of `svc/race_node.rs`. -/
inductive Error
| Unknown
deriving DecidableEq, Repr

/-- `FrameData([u8; 16])`: the fixed 16-byte wire frame. Each field is
one byte (a `Nat`; well-formed frames have every byte < 256, see
`FrameData.Wf`). -/
structure FrameData where
b0 : Nat
b1 : Nat
b2 : Nat
b3 : Nat
b4 : Nat
b5 : Nat
b6 : Nat
b7 : Nat
b8 : Nat
b9 : Nat
b10 : Nat
b11 : Nat
b12 : Nat
b13 : Nat
b14 : Nat
b15 : Nat
deriving DecidableEq, Repr

/-- Every byte of the frame is in the `u8` range. -/
def FrameData.Wf (f : FrameData) : Prop :=
f.b0 < 256 ∧ f.b1 < 256 ∧ f.b2 < 256 ∧ f.b3 < 256 ∧ f.b4 < 256 ∧
f.b5 < 256 ∧ f.b6 < 256 ∧ f.b7 < 256 ∧ f.b8 < 256 ∧ f.b9 < 256 ∧
f.b10 < 256 ∧ f.b11 < 256 ∧ f.b12 < 256 ∧ f.b13 < 256 ∧ f.b14 < 256 ∧
f.b15 < 256

instance (f : FrameData) : Decidable f.Wf := by
unfold FrameData.Wf
infer_instance

/-- The `SystemState` carried on the wire in `svc/race_node.rs`
(this snapshot of the codec predates the richer application-side
`SystemState`): a gate state and a millisecond timestamp
(`svc::clock::Instant`, a `u32` millisecond count embedded as `Nat`). -/
structure SystemState where
gate_state : GateState
time : Nat
deriving DecidableEq, Repr

/-- `AddressedSystemState` from `svc/race_node.rs`. -/
structure AddressedSystemState where
addr : NodeAddress
state : SystemState
deriving DecidableEq, Repr

/-- `RaceNodeMessage` from `svc/race_node.rs`: the single message kind
(tag 1) carrying an addressed system state. -/
inductive RaceNodeMessage
| SystemState (x : AddressedSystemState)
deriving DecidableEq, Repr

/-- `TryFrom<FrameData> for AddressedSystemState`: reads the address
from byte 1, the gate state from byte 2 (0 = inactive, 1 = active,
anything else inactive), and the big-endian millisecond timestamp from
bytes 3–6. On a 16-byte frame every byte access succeeds, so this
decoder is total. -/
def AddressedSystemState.tryFrom (data : FrameData) : Except Error AddressedSystemState :=
let addr : NodeAddress := ⟨data.b1⟩
let gate_state : GateState :=
  match data.b2 with
  | 0 => GateState.Inactive
  | 1 => GateState.Active
  | _ => GateState.Inactive
let time : Nat := (data.b3 <<< 24) ||| (data.b4 <<< 16) ||| (data.b5 <<< 8) ||| data.b6
Except.ok { addr := addr, state := { gate_state := gate_state, time := time } }

/-- `TryFrom<FrameData> for RaceNodeMessage`: dispatch on the tag byte
(byte 0); tag 1 decodes an addressed system state, any other tag is a
decode error. -/
def RaceNodeMessage.tryFrom (data : FrameData) : Except Error RaceNodeMessage :=
match data.b0 with
| 1 => (AddressedSystemState.tryFrom data).map RaceNodeMessage.SystemState
| _ => Except.error Error.Unknown

/-- `serialize_system_state`: writes the address to byte 1, the gate
state byte to byte 2 and the big-endian millisecond timestamp to
bytes 3–6, leaving the remaining bytes of `data` unchanged. -/
def serialize_system_state (x : AddressedSystemState) (data : FrameData) : FrameData :=
{ data with
  b1 := x.addr.val
  b2 := x.state.gate_state.toByte
  b3 := (x.state.time >>> 24) &&& 0xFF
  b4 := (x.state.time >>> 16) &&& 0xFF
  b5 := (x.state.time >>> 8) &&& 0xFF
  b6 := x.state.time &&& 0xFF }

/-- `From<&RaceNodeMessage> for FrameData`: a zeroed 16-byte frame with
the tag in byte 0, filled by `serialize_system_state`. -/
def FrameData.fromMessage (msg : RaceNodeMessage) : FrameData :=
let msg_id : Nat :=
  match msg with
  | .SystemState _ => 1
let data : FrameData := ⟨msg_id, 0, 0, 0, 0, 0, 0, 0, 0, 0, 0, 0, 0, 0, 0, 0⟩
match msg with
| .SystemState x => serialize_system_state x data

/-- A valid beacon payload: the address fits in a `u8` and the
timestamp in a `u32`, as the Rust types guarantee. -/
def RaceNodeMessage.Wf : RaceNodeMessage → Prop
| .SystemState x => x.addr.val < 256 ∧ x.state.time < 2 ^ 32

instance (m : RaceNodeMessage) : Decidable m.Wf := by
unfold RaceNodeMessage.Wf
cases m
infer_instance

end race_node

namespace app

/-- `LocalInstant`: monotonic local time in milliseconds (spec §3). -/
abbrev LocalInstant := Nat

/-- `CoordinatedInstant`: the coordinator's shared time reference in
milliseconds; on a gate it is `LocalInstant + LocalOffset`, so it is
embedded as an integer. -/
abbrev CoordinatedInstant := Int

/-- `LocalOffset`: signed millisecond duration a gate adds to its local
time (spec §3). -/
abbrev LocalOffset := Int

/-- Modelled from the spec: `svc::calculate_clock_offset` is not part
of the sources. Per spec §4.2 the offset is
`coordinator_time - local_time`, defined only when the coordinator time
is at or after the local reference point; the reverse case is an
explicit error condition (spec §4.2/§7; in the source it is a
crash-on-reach placeholder, spec §9), embedded as `none`. -/
def calculate_clock_offset (coordinator_time : CoordinatedInstant)
    (local_time : LocalInstant) : Option LocalOffset :=
if (local_time : Int) ≤ coordinator_time then
  some (coordinator_time - (local_time : Int))
else
  none

/-- Modelled from the spec: `svc::CoordinatedClock`, a view combining
the local clock reading with a currently-held offset; `now()` is local
now plus offset (spec §4.2). -/
structure CoordinatedClock where
local_now : LocalInstant
clock_offset : LocalOffset
deriving DecidableEq, Repr

def CoordinatedClock.now (c : CoordinatedClock) : CoordinatedInstant :=
(c.local_now : Int) + c.clock_offset

def CoordinatedClock.offset (c : CoordinatedClock) : LocalOffset :=
c.clock_offset

/-- Modelled from the spec: one aggregated gate record of `app::gates`
(not part of the sources): the latest known active flag and
last-activation coordinated time (spec §3/§4.4). -/
structure Gate where
active : Bool
last_activation_time : Option CoordinatedInstant
deriving DecidableEq, Repr

instance : Inhabited Gate := ⟨{ active := false, last_activation_time := none }⟩

/-- Modelled from the spec: `app::gates::Gates`, the coordinator-side
record for the start gate and the finish gate (spec §3/§4.4). -/
structure Gates where
start_gate : Gate
finish_gate : Gate
deriving DecidableEq, Repr

instance : Inhabited Gates := ⟨{ start_gate := default, finish_gate := default }⟩

/-- Modelled from the spec: `app::race::Race` (not part of the
sources): either pending, or an elapsed time once both gates have a
last-activation time (spec §3/§4.4). -/
inductive Race
| pending
| elapsed (duration : Int)
deriving DecidableEq, Repr

instance : Inhabited Race := ⟨Race.pending⟩

/-- Modelled from the spec: `Race::set_gates` recomputes the race from
the gates: elapsed = finish last-activation − start last-activation
once both are present, otherwise pending (spec §4.4). -/
def Race.set_gates (_r : Race) (gates : Gates) : Race :=
match gates.start_gate.last_activation_time, gates.finish_gate.last_activation_time with
| some s, some f => Race.elapsed (f - s)
| _, _ => Race.pending

/-- The application-side `SystemState` snapshot of `app/mod.rs`:
coordinated time, gates and race. -/
structure SystemState where
time : CoordinatedInstant
gates : Gates
race : Race
deriving DecidableEq, Repr

instance : Inhabited SystemState := ⟨{ time := 0, gates := default, race := default }⟩

/-- Modelled from the spec: `CoordinatorBeacon \x7b time \x7d`
(spec §3). -/
structure CoordinatorBeacon where
time : CoordinatedInstant
deriving DecidableEq, Repr

/-- Modelled from the spec: `GateBeacon \x7b address, gate state,
last-activation time \x7d` (spec §3). -/
structure GateBeacon where
addr : NodeAddress
state : GateState
last_activation_time : Option CoordinatedInstant
deriving DecidableEq, Repr

/-- The capability inputs one state-machine tick reads from the
`Platform` collaborator (spec §6): link status, gate hardware state,
button state, the local clock reading (`none` when unreliable), the
resolved node address, the last observed coordinator time and the
aggregated gates from the network transport, and the wall reading of
`Instant::now()` in milliseconds since process start (used by
`GateStartupState` timing). -/
structure Inputs where
is_wifi_connected : Bool
gate_state : GateState
button_state : ButtonState
local_time : Option LocalInstant
address : NodeAddress
coordinator_time : Option CoordinatedInstant
gates : Gates
now : Nat
deriving DecidableEq, Repr

/-- The side effects one tick performs on the collaborators: the beacon
published to the network, the coordinator time recorded for other
subsystems, and the snapshot written to the dashboard. -/
structure Outputs where
coordinator_beacon : Option CoordinatorBeacon
gate_beacon : Option GateBeacon
set_coordinator_time : Option CoordinatedInstant
dashboard : Option SystemState
deriving DecidableEq, Repr

instance : Inhabited Outputs :=
⟨{ coordinator_beacon := none, gate_beacon := none,
   set_coordinator_time := none, dashboard := none }⟩

/-- `InitState` of `app/mod.rs` (its fields are sampled at
construction and never updated by `update`). -/
structure InitState where
gate_state : GateState
button_state : ButtonState
time : LocalInstant
deriving DecidableEq, Repr

instance : Inhabited InitState :=
⟨{ gate_state := default, button_state := default, time := 0 }⟩

/-- `CoordinatorReadyState` of `app/mod.rs`. -/
structure CoordinatorReadyState where
time : CoordinatedInstant
system_state : SystemState
any_gate_active : Bool
deriving DecidableEq, Repr

/-- `GateStartupState` of `app/mod.rs`; `time_started` is the
`Instant::now()` reading (milliseconds since process start) taken when
the state was entered. -/
structure GateStartupState where
time_started : Nat
deriving DecidableEq, Repr

/-- `GateReadyState` of `app/mod.rs`. -/
structure GateReadyState where
is_wifi_connected : Bool
gate_state : GateState
clock_offset : LocalOffset
last_activation_time : Option CoordinatedInstant
deriving DecidableEq, Repr

/-- `AppState` of `app/mod.rs`: the node-local state-machine state. -/
inductive AppState
| Init (s : InitState)
| CoordinatorReady (s : CoordinatorReadyState)
| GateStartup (s : GateStartupState)
| GateReady (s : GateReadyState)
deriving DecidableEq, Repr

instance : Inhabited AppState := ⟨AppState.Init default⟩

/-- `make_coordinated_clock` of `app/mod.rs`: requires a local clock
reading and an observed coordinator time, then computes the clock
offset (whose error case propagates as `none`). -/
def make_coordinated_clock (local_time : Option LocalInstant)
    (coordinator_time : Option CoordinatedInstant) : Option CoordinatedClock := do
let time ← local_time
let coord_time ← coordinator_time
let clock_offset ← calculate_clock_offset coord_time time
pure { local_now := time, clock_offset := clock_offset }

/-- `InitState::update`: samples the inputs; determines the role when
the button is not pressed and the gate hardware is not active (note:
`is_wifi_connected` is sampled by the source but not consulted by the
guards); gate address → `GateStartup`, coordinator address →
`CoordinatorReady` stamped with the current local time; otherwise
remains `Init`. A failed local clock read is a process-terminating
`expect`, embedded as `none`. -/
def InitState.update (s : InitState) (inp : Inputs) : Option (AppState × Outputs) :=
match inp.local_time with
| none => none
| some local_time =>
  let startup_as_gate :=
    inp.address.is_gate && !(inp.button_state == ButtonState.Pressed)
      && !(inp.gate_state == GateState.Active)
  let startup_as_coordinator :=
    inp.address.is_coordinator && !(inp.button_state == ButtonState.Pressed)
      && !(inp.gate_state == GateState.Active)
  if startup_as_gate then
    some (AppState.GateStartup { time_started := inp.now }, default)
  else if startup_as_coordinator then
    some (AppState.CoordinatorReady
      { time := (local_time : Int), system_state := default, any_gate_active := false },
      default)
  else
    some (AppState.Init s, default)

/-- `CoordinatorReadyState::update`: if the link is down, a hard reset
to `Init`; otherwise stamps the local time as coordinated time,
publishes a `CoordinatorBeacon`, records the coordinator time, pulls
the gates, recomputes the race, writes the previously stored snapshot
to the dashboard (`set_system_state(&self.system_state)`), and stays
`CoordinatorReady` carrying the newly computed snapshot. A failed local
clock read is a process-terminating `expect`, embedded as `none`. -/
def CoordinatorReadyState.update (s : CoordinatorReadyState) (inp : Inputs) :
    Option (AppState × Outputs) :=
if !inp.is_wifi_connected then
  some (AppState.Init default, default)
else
  match inp.local_time with
  | none => none
  | some local_time =>
    let time : CoordinatedInstant := (local_time : Int)
    let beacon : CoordinatorBeacon := { time := time }
    let gates := inp.gates
    let race := s.system_state.race.set_gates gates
    let any_gate_active := gates.start_gate.active || gates.finish_gate.active
    let system_state : SystemState := { time := time, gates := gates, race := race }
    some (AppState.CoordinatorReady
      { time := time, system_state := system_state, any_gate_active := any_gate_active },
      { coordinator_beacon := some beacon
        gate_beacon := none
        set_coordinator_time := some time
        dashboard := some s.system_state })

/-- `GateStartupState::update`: if more than 10 seconds have elapsed
since entering the state, the process terminates (a Rust panic,
embedded as `none`); otherwise, if a coordinated clock can be made from
the latest coordinator beacon, transition to `GateReady` with the
computed offset and no latched activation time, else stay put. -/
def GateStartupState.update (s : GateStartupState) (inp : Inputs) :
    Option (AppState × Outputs) :=
if s.time_started ≤ inp.now ∧ 10000 < inp.now - s.time_started then
  none
else
  match make_coordinated_clock inp.local_time inp.coordinator_time with
  | some coordinated_clock =>
    some (AppState.GateReady
      { is_wifi_connected := inp.is_wifi_connected
        gate_state := inp.gate_state
        clock_offset := coordinated_clock.offset
        last_activation_time := none },
      default)
  | none => some (AppState.GateStartup s, default)

/-- `GateReadyState::update`: demotes to `GateStartup` when no
coordinated clock can be made; otherwise latches the coordinated time
on an active gate reading (sticky across inactive readings) and
publishes a `GateBeacon` every tick. -/
def GateReadyState.update (s : GateReadyState) (inp : Inputs) :
    Option (AppState × Outputs) :=
match make_coordinated_clock inp.local_time inp.coordinator_time with
| none => some (AppState.GateStartup { time_started := inp.now }, default)
| some coordinated_clock =>
  let coordinated_time := coordinated_clock.now
  let clock_offset := coordinated_clock.offset
  let addr := inp.address
  let last_activation_time :=
    if inp.gate_state == GateState.Active then
      some coordinated_time
    else
      s.last_activation_time
  let beacon : GateBeacon :=
    { addr := addr, state := inp.gate_state, last_activation_time := last_activation_time }
  some (AppState.GateReady
    { is_wifi_connected := inp.is_wifi_connected
      gate_state := inp.gate_state
      clock_offset := clock_offset
      last_activation_time := last_activation_time },
    { coordinator_beacon := none
      gate_beacon := some beacon
      set_coordinator_time := none
      dashboard := none })

/-- `App::update`: dispatch one tick to the current state's update. -/
def AppState.update (s : AppState) (inp : Inputs) : Option (AppState × Outputs) :=
match s with
| .Init st => st.update inp
| .CoordinatorReady st => st.update inp
| .GateStartup st => st.update inp
| .GateReady st => st.update inp

/-- The role-transition edges the spec allows: self loops, the forward
edges `Init → GateStartup`, `Init → CoordinatorReady` and
`GateStartup → GateReady`, the demotion `GateReady → GateStartup` and
the hard reset `CoordinatorReady → Init`. -/
def edgeOk : AppState → AppState → Bool
| .Init _, .Init _ => true
| .Init _, .GateStartup _ => true
| .Init _, .CoordinatorReady _ => true
| .CoordinatorReady _, .CoordinatorReady _ => true
| .CoordinatorReady _, .Init _ => true
| .GateStartup _, .GateStartup _ => true
| .GateStartup _, .GateReady _ => true
| .GateReady _, .GateReady _ => true
| .GateReady _, .GateStartup _ => true
| _, _ => false

end app

/-! ### Arithmetic helpers for the wire codec -/

/-- Bitwise or of a left-shifted value with a value below the shift
width is addition. -/
theorem lor_eq_add_of_lt (a : Nat) : ∀ (n b : Nat), b < 2 ^ n → (a <<< n) ||| b = a <<< n + b := by
intro n
induction n with
| zero =>
  intro b hb
  have hb0 : b = 0 := by omega
  subst hb0
  simp
| succ n ih =>
  intro b hb
  have hdiv : b.div2 < 2 ^ n := by
    have h1 := Nat.div2_val b
    have h2 : (2 : Nat) ^ (n + 1) = 2 * 2 ^ n := by ring
    omega
  have hbit : a <<< (n + 1) = Nat.bit false (a <<< n) := by
    rw [Nat.shiftLeft_succ, Nat.bit_val]
    simp
  rw [hbit]
  conv_lhs => rw [← Nat.bit_decomp b]
  rw [Nat.lor_bit, Bool.false_or, ih b.div2 hdiv, Nat.bit_val, Nat.bit_val]
  have h1 := Nat.mod_two_of_bodd b
  have h2 := Nat.div2_val b
  simp only [Bool.toNat_false]
  omega

/-- The big-endian byte join used by the decoder, as plain arithmetic. -/
theorem join_bytes_eq (d0 d1 d2 d3 : Nat) (_h0 : d0 < 256) (h1 : d1 < 256)
    (h2 : d2 < 256) (h3 : d3 < 256) :
    (d0 <<< 24) ||| (d1 <<< 16) ||| (d2 <<< 8) ||| d3
      = d0 * 2 ^ 24 + d1 * 2 ^ 16 + d2 * 2 ^ 8 + d3 := by
have p8 : (2 : Nat) ^ 8 = 256 := by norm_num
have p16 : (2 : Nat) ^ 16 = 65536 := by norm_num
have p24 : (2 : Nat) ^ 24 = 16777216 := by norm_num
rw [Nat.lor_assoc, Nat.lor_assoc]
have e1 : (d2 <<< 8) ||| d3 = d2 * 2 ^ 8 + d3 := by
  rw [lor_eq_add_of_lt d2 8 d3 (by rw [p8]; exact h3), Nat.shiftLeft_eq]
have b1 : d2 * 2 ^ 8 + d3 < 2 ^ 16 := by
  rw [p8, p16]
  omega
have e2 : (d1 <<< 16) ||| ((d2 <<< 8) ||| d3) = d1 * 2 ^ 16 + (d2 * 2 ^ 8 + d3) := by
  rw [e1, lor_eq_add_of_lt d1 16 _ b1, Nat.shiftLeft_eq]
have b2 : d1 * 2 ^ 16 + (d2 * 2 ^ 8 + d3) < 2 ^ 24 := by
  rw [p8, p16, p24]
  omega
rw [e2, lor_eq_add_of_lt d0 24 _ b2, Nat.shiftLeft_eq]
ring

/-- The byte-mask write of the encoder, as plain arithmetic. -/
theorem shiftRight_land_255 (t k : Nat) : (t >>> k) &&& 255 = t / 2 ^ k % 256 := by
have h255 : (255 : Nat) = 2 ^ 8 - 1 := by norm_num
rw [h255, Nat.and_pow_two_sub_one_eq_mod, Nat.shiftRight_eq_div_pow]

theorem land_255 (t : Nat) : t &&& 255 = t % 256 := by
have h := shiftRight_land_255 t 0
simpa using h

/-- Decoding an encoded valid beacon payload recovers the payload. -/
theorem decode_encode_eq (x : race_node.AddressedSystemState)
    (ha : x.addr.val < 256) (ht : x.state.time < 2 ^ 32) :
    race_node.AddressedSystemState.tryFrom
      (race_node.FrameData.fromMessage (race_node.RaceNodeMessage.SystemState x))
      = Except.ok x := by
obtain ⟨⟨av⟩, ⟨gs, t⟩⟩ := x
simp only [race_node.FrameData.fromMessage, race_node.serialize_system_state,
  race_node.AddressedSystemState.tryFrom]
have hb3 : (t >>> 24) &&& 0xFF = t / 2 ^ 24 % 256 := shiftRight_land_255 t 24
have hb4 : (t >>> 16) &&& 0xFF = t / 2 ^ 16 % 256 := shiftRight_land_255 t 16
have hb5 : (t >>> 8) &&& 0xFF = t / 2 ^ 8 % 256 := shiftRight_land_255 t 8
have hb6 : t &&& 0xFF = t % 256 := land_255 t
rw [hb3, hb4, hb5, hb6,
  join_bytes_eq _ _ _ _ (Nat.mod_lt _ (by norm_num)) (Nat.mod_lt _ (by norm_num))
    (Nat.mod_lt _ (by norm_num)) (Nat.mod_lt _ (by norm_num))]
have hgs : (match gs.toByte with
    | 0 => GateState.Inactive
    | 1 => GateState.Active
    | _ => GateState.Inactive) = gs := by
  cases gs <;> rfl
have ht' : t < 4294967296 := by simpa using ht
simp only [hgs]
simp only [race_node.AddressedSystemState.mk.injEq, race_node.SystemState.mk.injEq,
  Except.ok.injEq]
refine ⟨trivial, trivial, ?_⟩
omega

/-- The gate state a frame decodes to, when it decodes at all. -/
def decodedGateState (f : race_node.FrameData) : Option GateState :=
match race_node.AddressedSystemState.tryFrom f with
| .ok a => some a.state.gate_state
| .error _ => none

/-! ### Claim theorems for the wire codec -/

/-- C3: for every valid beacon payload, decoding the frame produced by
encoding it and re-encoding the result yields the original 16-byte
frame (encode(decode(frame)) == frame); and for every 16-byte frame
whose tag byte is not a recognized message type, decoding returns a
decode error rather than panicking. -/
theorem c3_frame_roundtrip_and_unknown_tag :
    (∀ msg : race_node.RaceNodeMessage, msg.Wf →
      (race_node.RaceNodeMessage.tryFrom (race_node.FrameData.fromMessage msg)).map
          race_node.FrameData.fromMessage
        = Except.ok (race_node.FrameData.fromMessage msg)) ∧
    (∀ f : race_node.FrameData, f.b0 ≠ 1 →
      race_node.RaceNodeMessage.tryFrom f = Except.error race_node.Error.Unknown) := by
constructor
· intro msg hwf
  cases msg with
  | SystemState x =>
    obtain ⟨ha, ht⟩ := hwf
    have hstep : race_node.RaceNodeMessage.tryFrom
        (race_node.FrameData.fromMessage (race_node.RaceNodeMessage.SystemState x))
        = (race_node.AddressedSystemState.tryFrom
            (race_node.FrameData.fromMessage (race_node.RaceNodeMessage.SystemState x))).map
          race_node.RaceNodeMessage.SystemState := rfl
    rw [hstep, decode_encode_eq x ha ht]
    rfl
· intro f hf
  rcases hb : f.b0 with _ | m
  · simp [race_node.RaceNodeMessage.tryFrom, hb]
  · rcases m with _ | k
    · exact absurd hb hf
    · simp [race_node.RaceNodeMessage.tryFrom, hb]

/-- Witness for C3 at a concrete payload and a concrete unknown-tag
frame. -/
theorem c3_witness :
    (race_node.RaceNodeMessage.tryFrom (race_node.FrameData.fromMessage
        (race_node.RaceNodeMessage.SystemState ⟨⟨1⟩, ⟨GateState.Active, 12345⟩⟩))).map
        race_node.FrameData.fromMessage
      = Except.ok (race_node.FrameData.fromMessage
        (race_node.RaceNodeMessage.SystemState ⟨⟨1⟩, ⟨GateState.Active, 12345⟩⟩)) ∧
    race_node.RaceNodeMessage.tryFrom ⟨7, 0, 0, 0, 0, 0, 0, 0, 0, 0, 0, 0, 0, 0, 0, 0⟩
      = Except.error race_node.Error.Unknown :=
⟨c3_frame_roundtrip_and_unknown_tag.1 ⟨⟨1⟩, ⟨GateState.Active, 12345⟩⟩ (by decide),
 c3_frame_roundtrip_and_unknown_tag.2 ⟨7, 0, 0, 0, 0, 0, 0, 0, 0, 0, 0, 0, 0, 0, 0, 0⟩
   (by decide)⟩

/-- C8: encoding a beacon message produces a frame of exactly 16 bytes
(the `FrameData` type) laid out as byte 0 = tag 1, byte 1 = node
address, byte 2 = gate state (0 inactive, 1 active), bytes 3–6 = the
millisecond timestamp in big-endian order, bytes 7–15 = zero. -/
theorem c8_encode_layout :
    ∀ x : race_node.AddressedSystemState, x.state.time < 2 ^ 32 →
      race_node.FrameData.fromMessage (race_node.RaceNodeMessage.SystemState x)
        = { b0 := 1, b1 := x.addr.val, b2 := x.state.gate_state.toByte,
            b3 := x.state.time / 2 ^ 24 % 256, b4 := x.state.time / 2 ^ 16 % 256,
            b5 := x.state.time / 2 ^ 8 % 256, b6 := x.state.time % 256,
            b7 := 0, b8 := 0, b9 := 0, b10 := 0, b11 := 0, b12 := 0,
            b13 := 0, b14 := 0, b15 := 0 } ∧
      (x.state.gate_state = GateState.Inactive → x.state.gate_state.toByte = 0) ∧
      (x.state.gate_state = GateState.Active → x.state.gate_state.toByte = 1) ∧
      x.state.time / 2 ^ 24 % 256 * 2 ^ 24 + x.state.time / 2 ^ 16 % 256 * 2 ^ 16
          + x.state.time / 2 ^ 8 % 256 * 2 ^ 8 + x.state.time % 256
        = x.state.time := by
intro x ht
obtain ⟨⟨av⟩, ⟨gs, t⟩⟩ := x
have ht' : t < 4294967296 := by simpa using ht
refine ⟨?_, by intro h; rw [h]; rfl, by intro h; rw [h]; rfl, by simp only; omega⟩
simp only [race_node.FrameData.fromMessage, race_node.serialize_system_state]
rw [race_node.FrameData.mk.injEq]
refine ⟨rfl, rfl, rfl, ?_, ?_, ?_, ?_, rfl, rfl, rfl, rfl, rfl, rfl, rfl, rfl, rfl⟩
· exact shiftRight_land_255 t 24
· exact shiftRight_land_255 t 16
· exact shiftRight_land_255 t 8
· exact land_255 t

/-- Witness for C8 at a concrete beacon message. -/
theorem c8_witness :
    race_node.FrameData.fromMessage (race_node.RaceNodeMessage.SystemState
        ⟨⟨1⟩, ⟨GateState.Active, 12345⟩⟩)
      = { b0 := 1, b1 := 1, b2 := 1, b3 := 0, b4 := 0, b5 := 48, b6 := 57,
          b7 := 0, b8 := 0, b9 := 0, b10 := 0, b11 := 0, b12 := 0,
          b13 := 0, b14 := 0, b15 := 0 } :=
(c8_encode_layout ⟨⟨1⟩, ⟨GateState.Active, 12345⟩⟩ (by decide)).1

/-- C10: decoding a 16-byte frame with tag 1 inspects only bytes 0–6:
two tag-1 frames agreeing on bytes 0–6 decode identically, a tag-1
frame always decodes successfully (reserved bytes never cause an
error), and a gate-state byte other than 0 or 1 decodes as inactive. -/
theorem c10_decode_reads_only_first_seven_bytes :
    (∀ f g : race_node.FrameData, f.b0 = 1 → f.b0 = g.b0 → f.b1 = g.b1 → f.b2 = g.b2 →
      f.b3 = g.b3 → f.b4 = g.b4 → f.b5 = g.b5 → f.b6 = g.b6 →
      race_node.RaceNodeMessage.tryFrom f = race_node.RaceNodeMessage.tryFrom g) ∧
    (∀ f : race_node.FrameData, f.b0 = 1 →
      (race_node.RaceNodeMessage.tryFrom f).isOk = true) ∧
    (∀ f : race_node.FrameData, f.b2 ≠ 0 → f.b2 ≠ 1 →
      decodedGateState f = some GateState.Inactive) := by
refine ⟨?_, ?_, ?_⟩
· intro f g h1 e0 e1 e2 e3 e4 e5 e6
  obtain ⟨f0, f1, f2, f3, f4, f5, f6, f7, f8, f9, f10, f11, f12, f13, f14, f15⟩ := f
  obtain ⟨g0, g1, g2, g3, g4, g5, g6, g7, g8, g9, g10, g11, g12, g13, g14, g15⟩ := g
  simp only at h1 e0 e1 e2 e3 e4 e5 e6
  subst h1 e1 e2 e3 e4 e5 e6
  rw [← e0]
  rfl
· intro f h1
  obtain ⟨f0, f1, f2, f3, f4, f5, f6, f7, f8, f9, f10, f11, f12, f13, f14, f15⟩ := f
  simp only at h1
  subst h1
  rfl
· intro f h0 h1
  obtain ⟨m, hm⟩ : ∃ m, f.b2 = m + 2 := ⟨f.b2 - 2, by omega⟩
  unfold decodedGateState race_node.AddressedSystemState.tryFrom
  rw [hm]
  rfl

/-- Witness for C10: two concrete tag-1 frames differing only in the
reserved bytes decode identically and successfully, and a gate-state
byte of 77 decodes as inactive. -/
theorem c10_witness :
    race_node.RaceNodeMessage.tryFrom ⟨1, 5, 1, 0, 0, 48, 57, 0, 0, 0, 0, 0, 0, 0, 0, 0⟩
        = race_node.RaceNodeMessage.tryFrom
          ⟨1, 5, 1, 0, 0, 48, 57, 9, 8, 7, 6, 5, 4, 3, 2, 1⟩ ∧
    (race_node.RaceNodeMessage.tryFrom
        ⟨1, 5, 1, 0, 0, 48, 57, 9, 8, 7, 6, 5, 4, 3, 2, 1⟩).isOk = true ∧
    decodedGateState ⟨1, 5, 77, 0, 0, 48, 57, 0, 0, 0, 0, 0, 0, 0, 0, 0⟩
      = some GateState.Inactive :=
⟨c10_decode_reads_only_first_seven_bytes.1 _ _ rfl rfl rfl rfl rfl rfl rfl rfl,
 c10_decode_reads_only_first_seven_bytes.2.1 _ rfl,
 c10_decode_reads_only_first_seven_bytes.2.2 _ (by decide) (by decide)⟩

/-! ### Claim theorems for the state machine and time model -/

/-- C1 (code bug): in `Init` with the link down, the button not
pressed, the gate hardware inactive and a start-gate address,
`InitState::update` still determines the gate role and transitions to
`GateStartup`; `is_wifi_connected` is sampled by the source but never
consulted by the role guards, so the node does not remain in `Init`
when the link is down. -/
theorem c1_init_determines_role_with_link_down :
    app.InitState.update default
      { is_wifi_connected := false, gate_state := GateState.Inactive,
        button_state := ButtonState.NotPressed, local_time := some 5,
        address := ⟨1⟩, coordinator_time := none, gates := default, now := 3 }
      = some (app.AppState.GateStartup { time_started := 3 }, default) := by
decide

/-- C2: the clock-offset computation returns exactly
`coordinator_time - local_time` whenever `coordinator_time ≥
local_time`, and surfaces an error (`none`) whenever
`coordinator_time < local_time`. -/
theorem c2_clock_offset_law :
    (∀ (coordinator_time : app.CoordinatedInstant) (local_time : app.LocalInstant),
      (local_time : Int) ≤ coordinator_time →
      app.calculate_clock_offset coordinator_time local_time
        = some (coordinator_time - (local_time : Int))) ∧
    (∀ (coordinator_time : app.CoordinatedInstant) (local_time : app.LocalInstant),
      coordinator_time < (local_time : Int) →
      app.calculate_clock_offset coordinator_time local_time = none) := by
constructor
· intro c l h
  unfold app.calculate_clock_offset
  rw [if_pos h]
· intro c l h
  unfold app.calculate_clock_offset
  rw [if_neg (not_le.mpr h)]

/-- Witness for C2 at concrete timestamps. -/
theorem c2_witness :
    app.calculate_clock_offset 5000 2000 = some ((5000 : Int) - (2000 : Nat)) ∧
    app.calculate_clock_offset 1000 2000 = none :=
⟨c2_clock_offset_law.1 5000 2000 (by norm_num),
 c2_clock_offset_law.2 1000 2000 (by norm_num)⟩

/-- C9: the derived race has elapsed time finish last-activation minus
start last-activation exactly when both gates have one, and is pending
otherwise; in particular start 1000 ms / finish 4500 ms gives 3500 ms
elapsed, and a missing start time gives a pending race. -/
theorem c9_race_derivation :
    (∀ (r : app.Race) (g : app.Gates) (s f : app.CoordinatedInstant),
      g.start_gate.last_activation_time = some s →
      g.finish_gate.last_activation_time = some f →
      r.set_gates g = app.Race.elapsed (f - s)) ∧
    (∀ (r : app.Race) (g : app.Gates),
      g.start_gate.last_activation_time = none ∨
        g.finish_gate.last_activation_time = none →
      r.set_gates g = app.Race.pending) ∧
    app.Race.set_gates app.Race.pending
        ⟨⟨false, some 1000⟩, ⟨false, some 4500⟩⟩ = app.Race.elapsed 3500 ∧
    app.Race.set_gates app.Race.pending
        ⟨⟨false, none⟩, ⟨false, some 4500⟩⟩ = app.Race.pending := by
refine ⟨?_, ?_, by decide, by decide⟩
· intro r g s f hs hf
  unfold app.Race.set_gates
  rw [hs, hf]
· intro r g h
  obtain ⟨⟨sa, sl⟩, ⟨fa, fl⟩⟩ := g
  simp only at h
  unfold app.Race.set_gates
  rcases h with h | h
  · subst h
    rfl
  · subst h
    cases sl <;> rfl

/-- Witness for C9 at concrete gates records. -/
theorem c9_witness :
    app.Race.set_gates (app.Race.elapsed 7) ⟨⟨true, some 10⟩, ⟨false, some 25⟩⟩
        = app.Race.elapsed ((25 : Int) - 10) ∧
    app.Race.set_gates (app.Race.elapsed 7) ⟨⟨true, some 10⟩, ⟨true, none⟩⟩
      = app.Race.pending :=
⟨c9_race_derivation.1 (app.Race.elapsed 7) ⟨⟨true, some 10⟩, ⟨false, some 25⟩⟩ 10 25 rfl rfl,
 c9_race_derivation.2.1 (app.Race.elapsed 7) ⟨⟨true, some 10⟩, ⟨true, none⟩⟩ (Or.inr rfl)⟩

/-- C4 counterexample: on a concrete coordinator tick the snapshot
written to the dashboard is the previously stored one
(`set_system_state(&self.system_state)`), which differs from that
tick's freshly computed time/gates/race snapshot, so the claim that the
tick publishes the combined `SystemState` of that tick is false. -/
theorem c4_counterexample :
    app.CoordinatorReadyState.update
        { time := 0, system_state := { time := 0, gates := default, race := app.Race.pending },
          any_gate_active := false }
        { is_wifi_connected := true, gate_state := GateState.Inactive,
          button_state := ButtonState.NotPressed, local_time := some 1000,
          address := ⟨0⟩, coordinator_time := none,
          gates := ⟨⟨true, some 900⟩, ⟨false, none⟩⟩, now := 0 }
      = some (app.AppState.CoordinatorReady
          { time := 1000,
            system_state := { time := 1000,
                              gates := ⟨⟨true, some 900⟩, ⟨false, none⟩⟩,
                              race := app.Race.pending },
            any_gate_active := true },
        { coordinator_beacon := some ⟨1000⟩, gate_beacon := none,
          set_coordinator_time := some 1000,
          dashboard := some { time := 0, gates := default, race := app.Race.pending } }) ∧
    some ({ time := 0, gates := default, race := app.Race.pending } : app.SystemState)
      ≠ some ({ time := 1000,
                gates := ⟨⟨true, some 900⟩, ⟨false, none⟩⟩,
                race := app.Race.pending } : app.SystemState) := by
constructor
· decide
· decide

/-- C4 (amended): every coordinator tick with the link down resets to
`Init`; every tick with the link up stamps the local time as
coordinated time, publishes a `CoordinatorBeacon` with it, records the
coordinator time, pulls the gates, recomputes the race, writes the
previously stored snapshot to the dashboard, and remains
`CoordinatorReady` carrying the new snapshot. -/
theorem c4_coordinator_tick :
    (∀ (s : app.CoordinatorReadyState) (inp : app.Inputs),
      inp.is_wifi_connected = false →
      app.CoordinatorReadyState.update s inp = some (app.AppState.Init default, default)) ∧
    (∀ (s : app.CoordinatorReadyState) (inp : app.Inputs) (t : app.LocalInstant),
      inp.is_wifi_connected = true → inp.local_time = some t →
      app.CoordinatorReadyState.update s inp
        = some (app.AppState.CoordinatorReady
            { time := (t : Int),
              system_state := { time := (t : Int),
                                gates := inp.gates,
                                race := s.system_state.race.set_gates inp.gates },
              any_gate_active := inp.gates.start_gate.active || inp.gates.finish_gate.active },
          { coordinator_beacon := some ⟨(t : Int)⟩, gate_beacon := none,
            set_coordinator_time := some (t : Int),
            dashboard := some s.system_state })) := by
constructor
· intro s inp h
  unfold app.CoordinatorReadyState.update
  rw [h]
  rfl
· intro s inp t hw hl
  unfold app.CoordinatorReadyState.update
  rw [hw, hl]
  rfl

/-- Witness for C4 (amended) at a concrete state and tick. -/
theorem c4_witness :
    app.CoordinatorReadyState.update
        { time := 5, system_state := { time := 5, gates := default, race := app.Race.pending },
          any_gate_active := false }
        { is_wifi_connected := true, gate_state := GateState.Inactive,
          button_state := ButtonState.NotPressed, local_time := some 42,
          address := ⟨0⟩, coordinator_time := none,
          gates := ⟨⟨false, some 10⟩, ⟨false, some 25⟩⟩, now := 0 }
      = some (app.AppState.CoordinatorReady
          { time := ((42 : Nat) : Int),
            system_state := { time := ((42 : Nat) : Int),
                              gates := ⟨⟨false, some 10⟩, ⟨false, some 25⟩⟩,
                              race := app.Race.set_gates app.Race.pending
                                ⟨⟨false, some 10⟩, ⟨false, some 25⟩⟩ },
            any_gate_active := false || false },
        { coordinator_beacon := some ⟨((42 : Nat) : Int)⟩, gate_beacon := none,
          set_coordinator_time := some ((42 : Nat) : Int),
          dashboard := some { time := 5, gates := default, race := app.Race.pending } }) :=
c4_coordinator_tick.2
  { time := 5, system_state := { time := 5, gates := default, race := app.Race.pending },
    any_gate_active := false }
  { is_wifi_connected := true, gate_state := GateState.Inactive,
    button_state := ButtonState.NotPressed, local_time := some 42,
    address := ⟨0⟩, coordinator_time := none,
    gates := ⟨⟨false, some 10⟩, ⟨false, some 25⟩⟩, now := 0 }
  42 rfl rfl

/-- C5: in `GateStartup`, a tick more than 10 seconds after entering
the state terminates the process (embedded as `none`); otherwise a tick
on which a coordinated clock can be made transitions to `GateReady`
with the computed offset and no latched activation time, and a tick on
which it cannot stays in `GateStartup` unchanged. -/
theorem c5_gate_startup_timeout :
    (∀ (s : app.GateStartupState) (inp : app.Inputs),
      s.time_started ≤ inp.now → 10000 < inp.now - s.time_started →
      app.GateStartupState.update s inp = none) ∧
    (∀ (s : app.GateStartupState) (inp : app.Inputs) (c : app.CoordinatedClock),
      ¬(s.time_started ≤ inp.now ∧ 10000 < inp.now - s.time_started) →
      app.make_coordinated_clock inp.local_time inp.coordinator_time = some c →
      app.GateStartupState.update s inp
        = some (app.AppState.GateReady
            { is_wifi_connected := inp.is_wifi_connected, gate_state := inp.gate_state,
              clock_offset := c.offset, last_activation_time := none }, default)) ∧
    (∀ (s : app.GateStartupState) (inp : app.Inputs),
      ¬(s.time_started ≤ inp.now ∧ 10000 < inp.now - s.time_started) →
      app.make_coordinated_clock inp.local_time inp.coordinator_time = none →
      app.GateStartupState.update s inp = some (app.AppState.GateStartup s, default)) := by
refine ⟨?_, ?_, ?_⟩
· intro s inp h1 h2
  unfold app.GateStartupState.update
  rw [if_pos ⟨h1, h2⟩]
· intro s inp c hto hmk
  unfold app.GateStartupState.update
  rw [if_neg hto, hmk]
· intro s inp hto hmk
  unfold app.GateStartupState.update
  rw [if_neg hto, hmk]

/-- Witness for C5 at concrete ticks: a timed-out tick terminates, a
synced tick promotes to `GateReady`, an unsynced tick stays put. -/
theorem c5_witness :
    app.GateStartupState.update { time_started := 0 }
        { is_wifi_connected := true, gate_state := GateState.Inactive,
          button_state := ButtonState.NotPressed, local_time := some 99,
          address := ⟨1⟩, coordinator_time := some 200, gates := default,
          now := 10001 } = none ∧
    app.GateStartupState.update { time_started := 0 }
        { is_wifi_connected := true, gate_state := GateState.Inactive,
          button_state := ButtonState.NotPressed, local_time := some 99,
          address := ⟨1⟩, coordinator_time := some 200, gates := default,
          now := 500 }
      = some (app.AppState.GateReady
          { is_wifi_connected := true, gate_state := GateState.Inactive,
            clock_offset := app.CoordinatedClock.offset ⟨99, 101⟩,
            last_activation_time := none }, default) ∧
    app.GateStartupState.update { time_started := 0 }
        { is_wifi_connected := true, gate_state := GateState.Inactive,
          button_state := ButtonState.NotPressed, local_time := some 99,
          address := ⟨1⟩, coordinator_time := none, gates := default,
          now := 500 }
      = some (app.AppState.GateStartup { time_started := 0 }, default) :=
⟨c5_gate_startup_timeout.1 { time_started := 0 } _ (by decide) (by decide),
 c5_gate_startup_timeout.2.1 { time_started := 0 } _ ⟨99, 101⟩ (by decide) (by decide),
 c5_gate_startup_timeout.2.2 { time_started := 0 } _ (by decide) (by decide)⟩

/-- C6: on a `GateReady` tick with a usable coordinated clock, an
active gate reading latches the current coordinated instant as
last-activation time, an inactive reading leaves the latched value
unchanged, and a `GateBeacon` with the address, gate state and latched
time is published on every such tick. -/
theorem c6_gate_ready_latch :
    ∀ (s : app.GateReadyState) (inp : app.Inputs) (c : app.CoordinatedClock),
      app.make_coordinated_clock inp.local_time inp.coordinator_time = some c →
      app.GateReadyState.update s inp
        = some (app.AppState.GateReady
            { is_wifi_connected := inp.is_wifi_connected, gate_state := inp.gate_state,
              clock_offset := c.offset,
              last_activation_time :=
                if inp.gate_state = GateState.Active then some c.now
                else s.last_activation_time },
          { coordinator_beacon := none,
            gate_beacon := some
              { addr := inp.address, state := inp.gate_state,
                last_activation_time :=
                  if inp.gate_state = GateState.Active then some c.now
                  else s.last_activation_time },
            set_coordinator_time := none, dashboard := none }) := by
intro s inp c hmk
unfold app.GateReadyState.update
rw [hmk]
simp only [beq_iff_eq]

/-- Witness for C6: an active tick latches the coordinated time, and
the latched value persists through a subsequent inactive tick; the
beacon is published on both ticks. -/
theorem c6_witness :
    app.GateReadyState.update
        { is_wifi_connected := true, gate_state := GateState.Inactive,
          clock_offset := 101, last_activation_time := none }
        { is_wifi_connected := true, gate_state := GateState.Active,
          button_state := ButtonState.NotPressed, local_time := some 99,
          address := ⟨1⟩, coordinator_time := some 200, gates := default, now := 500 }
      = some (app.AppState.GateReady
          { is_wifi_connected := true, gate_state := GateState.Active,
            clock_offset := app.CoordinatedClock.offset ⟨99, 101⟩,
            last_activation_time :=
              if GateState.Active = GateState.Active
              then some (app.CoordinatedClock.now ⟨99, 101⟩) else none },
        { coordinator_beacon := none,
          gate_beacon := some
            { addr := ⟨1⟩, state := GateState.Active,
              last_activation_time :=
                if GateState.Active = GateState.Active
                then some (app.CoordinatedClock.now ⟨99, 101⟩) else none },
          set_coordinator_time := none, dashboard := none }) ∧
    app.GateReadyState.update
        { is_wifi_connected := true, gate_state := GateState.Active,
          clock_offset := 101, last_activation_time := some 200 }
        { is_wifi_connected := true, gate_state := GateState.Inactive,
          button_state := ButtonState.NotPressed, local_time := some 300,
          address := ⟨1⟩, coordinator_time := some 400, gates := default, now := 900 }
      = some (app.AppState.GateReady
          { is_wifi_connected := true, gate_state := GateState.Inactive,
            clock_offset := app.CoordinatedClock.offset ⟨300, 100⟩,
            last_activation_time :=
              if GateState.Inactive = GateState.Active
              then some (app.CoordinatedClock.now ⟨300, 100⟩) else some 200 },
        { coordinator_beacon := none,
          gate_beacon := some
            { addr := ⟨1⟩, state := GateState.Inactive,
              last_activation_time :=
                if GateState.Inactive = GateState.Active
                then some (app.CoordinatedClock.now ⟨300, 100⟩) else some 200 },
          set_coordinator_time := none, dashboard := none }) :=
⟨c6_gate_ready_latch
  { is_wifi_connected := true, gate_state := GateState.Inactive,
    clock_offset := 101, last_activation_time := none }
  { is_wifi_connected := true, gate_state := GateState.Active,
    button_state := ButtonState.NotPressed, local_time := some 99,
    address := ⟨1⟩, coordinator_time := some 200, gates := default, now := 500 }
  ⟨99, 101⟩ (by decide),
 c6_gate_ready_latch
  { is_wifi_connected := true, gate_state := GateState.Active,
    clock_offset := 101, last_activation_time := some 200 }
  { is_wifi_connected := true, gate_state := GateState.Inactive,
    button_state := ButtonState.NotPressed, local_time := some 300,
    address := ⟨1⟩, coordinator_time := some 400, gates := default, now := 900 }
  ⟨300, 100⟩ (by decide)⟩

/-- C7: every step of the state machine moves along an allowed edge
(`edgeOk`): self loops, the forward edges out of `Init` and
`GateStartup`, the demotion `GateReady → GateStartup` and the hard
reset `CoordinatorReady → Init` — in particular never
`GateStartup → Init`, `GateReady → Init` or any gate state to a
coordinator state; and from `GateReady` the step lands in `GateStartup`
precisely when no coordinated clock can be made. -/
theorem c7_transition_edges :
    (∀ (s : app.AppState) (inp : app.Inputs) (s' : app.AppState) (out : app.Outputs),
      app.AppState.update s inp = some (s', out) → app.edgeOk s s' = true) ∧
    (∀ (s : app.GateReadyState) (inp : app.Inputs) (s' : app.AppState) (out : app.Outputs),
      app.AppState.update (app.AppState.GateReady s) inp = some (s', out) →
      ((∃ st, s' = app.AppState.GateStartup st) ↔
        app.make_coordinated_clock inp.local_time inp.coordinator_time = none)) := by
constructor
· intro s inp s' out h
  cases s with
  | Init st =>
    rcases hl : inp.local_time with _ | t <;>
      simp only [app.AppState.update, app.InitState.update, hl] at h
    · exact Option.noConfusion h
    · split at h
      · simp only [Option.some.injEq, Prod.mk.injEq] at h
        rw [← h.1]
        rfl
      · split at h
        · simp only [Option.some.injEq, Prod.mk.injEq] at h
          rw [← h.1]
          rfl
        · simp only [Option.some.injEq, Prod.mk.injEq] at h
          rw [← h.1]
          rfl
  | CoordinatorReady st =>
    simp only [app.AppState.update, app.CoordinatorReadyState.update] at h
    split at h
    · simp only [Option.some.injEq, Prod.mk.injEq] at h
      rw [← h.1]
      rfl
    · rcases hl : inp.local_time with _ | t <;> simp only [hl] at h
      · exact Option.noConfusion h
      · simp only [Option.some.injEq, Prod.mk.injEq] at h
        rw [← h.1]
        rfl
  | GateStartup st =>
    simp only [app.AppState.update, app.GateStartupState.update] at h
    split at h
    · exact Option.noConfusion h
    · rcases hm : app.make_coordinated_clock inp.local_time inp.coordinator_time with _ | c <;>
        simp only [hm, Option.some.injEq, Prod.mk.injEq] at h
      · rw [← h.1]
        rfl
      · rw [← h.1]
        rfl
  | GateReady st =>
    simp only [app.AppState.update, app.GateReadyState.update] at h
    rcases hm : app.make_coordinated_clock inp.local_time inp.coordinator_time with _ | c <;>
      simp only [hm, Option.some.injEq, Prod.mk.injEq] at h
    · rw [← h.1]
      rfl
    · rw [← h.1]
      rfl
· intro s inp s' out h
  simp only [app.AppState.update, app.GateReadyState.update] at h
  rcases hm : app.make_coordinated_clock inp.local_time inp.coordinator_time with _ | c <;>
    simp only [hm, Option.some.injEq, Prod.mk.injEq] at h
  · exact iff_of_true ⟨{ time_started := inp.now }, h.1.symm⟩ rfl
  · refine iff_of_false ?_ ?_
    · rintro ⟨st0, hst⟩
      rw [← h.1] at hst
      exact app.AppState.noConfusion hst
    · simp

/-- Witness for C7: a concrete `Init → GateStartup` step moves along an
allowed edge. -/
theorem c7_witness :
    app.edgeOk (app.AppState.Init default) (app.AppState.GateStartup { time_started := 3 })
      = true :=
c7_transition_edges.1 (app.AppState.Init default)
  { is_wifi_connected := true, gate_state := GateState.Inactive,
    button_state := ButtonState.NotPressed, local_time := some 5,
    address := ⟨1⟩, coordinator_time := none, gates := default, now := 3 }
  (app.AppState.GateStartup { time_started := 3 }) default (by decide)

end Racegate
